import Mathlib

set_option maxHeartbeats 1000000

/-
Shallow embedding of the capture route module of the Owl repository
(src/untitledai/server/routes/capture.py).

Conventions of the embedding:
- Byte payloads are lists of naturals.
- Python dictionaries keyed by capture id become association lists with the
  helpers getKey / setKey / delKey below (insertion order preserved, one entry
  per key, matching dict semantics for the operations the source uses).
- Fallible Python operations (list.index raising ValueError, the constructor
  assert raising AssertionError) become Except values.
- The surrounding filesystem (the result of glob, the appends performed on the
  backing files) is carried explicitly in the AppState record: each file is the
  list of append operations performed on it, each append tagged with the
  write_wav_header flag that was passed.
- External collaborators whose code is not part of this module (files.py,
  streaming_capture_handler.py, the detection service) are modelled from the
  spec where needed; each such definition carries a doc comment saying so.
-/

/-- One endpoint pair of a conversation span (start and end timestamps,
modelled as naturals). -/
structure Endpoints where
  start : Nat
  stop : Nat
deriving DecidableEq

/-- A conversation returned by the detector: identifier plus endpoints. -/
structure Conversation where
  uuid : String
  endpoints : Endpoints
deriving DecidableEq

/-- Result of ConversationDetectionService.detect_conversations: the completed
conversations found so far plus at most one in-progress conversation. -/
structure DetectionResult where
  completed : List Conversation
  in_progress : Option Conversation
deriving DecidableEq

/-- Progress update record sent to the notification service
(models.schemas.ConversationProgress as used by this module). -/
structure ConversationProgress where
  conversation_uuid : String
  in_conversation : Bool
  start_time : Nat
  end_time : Nat
  device_type : String
deriving DecidableEq

/-- A capture file record (files.CaptureFile as used by this module):
identity, device tag, timestamp, container format and backing filepath. -/
structure CaptureFile where
  capture_uuid : String
  device_type : String
  timestamp : String
  file_extension : String
  filepath : String
deriving DecidableEq

/-- A per-capture conversation detection service instance
(services.ConversationDetectionService as constructed by upload_chunk:
it is bound to the capture filepath and timestamp). -/
structure ConversationDetectionService where
  capture_filepath : String
  capture_timestamp : String
deriving DecidableEq

/-- Modelled from the spec: a segment artifact handle returned by
CaptureFile.create_conversation_segment (files.py, which is not under src);
the spec says the artifact path is deterministic from the capture id and the
conversation id. -/
structure SegmentFile where
  filepath : String
deriving DecidableEq

/-- Modelled from the spec: CaptureFile.create_conversation_segment (files.py,
not under src) allocates a new artifact path deterministic from capture id,
conversation id, timestamp and extension, and returns the handle. -/
def CaptureFile.create_conversation_segment (cf : CaptureFile)
    (conversation_uuid : String) (timestamp : Nat) (file_extension : String) : SegmentFile :=
  { filepath := cf.capture_uuid ++ "-" ++ conversation_uuid ++ "-" ++ toString timestamp ++ "." ++ file_extension }

/-- Modelled from the spec: a streaming capture handler
(streaming_capture_handler.StreamingCaptureHandler, not under src), holding the
capture id, device tag and container extension it was created with. -/
structure StreamingCaptureHandler where
  capture_uuid : String
  device_type : String
  file_extension : String
deriving DecidableEq

/-- One append performed on a backing file: the bytes and the
write_wav_header flag the caller passed for this append. -/
structure AppendRecord where
  data : List Nat
  write_wav_header : Bool
deriving DecidableEq

/-- The background task record built by this module. The source has a single
task class, ProcessAudioChunkTask; finalize is expressed by audio_data being
absent, not by a different task kind. -/
structure ProcessAudioChunkTask where
  capture_file : CaptureFile
  detection_service : ConversationDetectionService
  format : String
  audio_data : Option (List Nat)
deriving DecidableEq

/-- The ProcessAudioChunkTask constructor including its assert: the source
asserts format == wav or format == aac and raises AssertionError otherwise. -/
def ProcessAudioChunkTask.mkChecked (capture_file : CaptureFile)
    (detection_service : ConversationDetectionService) (format : String)
    (audio_data : Option (List Nat)) : Except String ProcessAudioChunkTask :=
  if format = "wav" ∨ format = "aac" then
    Except.ok { capture_file := capture_file, detection_service := detection_service,
                format := format, audio_data := audio_data }
  else
    Except.error "AssertionError: format must be wav or aac"

/-- Entries of the background task queue. Chunk-path tasks are
ProcessAudioChunkTask records; the streaming handler (external to this module)
submits its own append/final work, kept abstract here. -/
inductive QueuedTask where
  | chunk (t : ProcessAudioChunkTask)
  | streamAppend (capture_uuid : String) (data : List Nat)
  | streamFinal (capture_uuid : String)
deriving DecidableEq

/-- The slice of AppState this module reads and writes, together with the
explicit filesystem (files maps each backing filepath to the appends performed
on it) and the current date used for new capture filepaths. -/
structure AppState where
  capture_files_by_id : List (String × CaptureFile)
  conversation_detection_service_by_id : List (String × ConversationDetectionService)
  capture_handlers : List (String × StreamingCaptureHandler)
  files : List (String × List AppendRecord)
  task_queue : List QueuedTask
  capture_dir : String
  current_date : String
deriving DecidableEq

/-- Response of an endpoint: a JSON success body with a message, or an HTTP
error status with a detail string. -/
inductive CaptureResponse where
  | ok (message : String)
  | httpError (code : Nat) (detail : String)
deriving DecidableEq

instance {m r : Type} [DecidableEq m] [DecidableEq r] : DecidableEq (Except m r) := fun x y =>
  match x, y with
  | Except.error a, Except.error b =>
    if h : a = b then Decidable.isTrue (by rw [h]) else Decidable.isFalse (by intro hc; cases hc; exact h rfl)
  | Except.ok a, Except.ok b =>
    if h : a = b then Decidable.isTrue (by rw [h]) else Decidable.isFalse (by intro hc; cases hc; exact h rfl)
  | Except.error a, Except.ok b => Decidable.isFalse (by intro hc; cases hc)
  | Except.ok a, Except.error b => Decidable.isFalse (by intro hc; cases hc)

/-- Dictionary lookup on an association list (Python d.get(k) / d[k]). -/
def getKey {α : Type} (m : List (String × α)) (k : String) : Option α :=
  match m with
  | [] => none
  | (k2, v) :: rest => if k2 = k then some v else getKey rest k

/-- Dictionary write d[k] = v: replaces an existing entry in place, otherwise
appends a new one (Python dict insertion-order semantics). -/
def setKey {α : Type} (m : List (String × α)) (k : String) (v : α) : List (String × α) :=
  match m with
  | [] => [(k, v)]
  | (k2, v2) :: rest => if k2 = k then (k, v) :: rest else (k2, v2) :: setKey rest k v

/-- Dictionary deletion del d[k] guarded by a membership test (a no-op when
the key is absent, as in the source which checks before deleting). -/
def delKey {α : Type} (m : List (String × α)) (k : String) : List (String × α) :=
  match m with
  | [] => []
  | (k2, v) :: rest => if k2 = k then delKey rest k else (k2, v) :: delKey rest k

/-- Record an append on a backing file, creating the file on first append
(Python open(mode = ab) creates the file when absent). -/
def appendToFile (files : List (String × List AppendRecord)) (path : String)
    (r : AppendRecord) : List (String × List AppendRecord) :=
  match files with
  | [] => [(path, [r])]
  | (p, rs) :: rest => if p = path then (p, rs ++ [r]) :: rest else (p, rs) :: appendToFile rest path r

/-- Split a character list at every occurrence of a separator character. -/
def splitOnCharAux (c : Char) : List Char → List Char → List (List Char)
  | [], acc => [acc.reverse]
  | x :: xs, acc =>
    if x = c then acc.reverse :: splitOnCharAux c xs []
    else splitOnCharAux c xs (x :: acc)

/-- Split a string at every occurrence of a separator character. -/
def splitOnChar (c : Char) (s : String) : List String :=
  (splitOnCharAux c s.toList []).map List.asString

/-- The components of a slash-separated path. -/
def pathComponents (path : String) : List String :=
  splitOnChar '/' path

/-- The extension computed by the source from a filename:
os.path.splitext(filename)[1].lstrip(dot). Leading dots of the basename do not
begin an extension (splitext semantics), and the result carries no dot. -/
def splitextExt (filename : String) : String :=
  let base := (pathComponents filename).getLastD ""
  let trimmed := base.toList.dropWhile (fun c => c == '.')
  let parts := (splitOnCharAux '.' trimmed []).map List.asString
  if parts.length ≤ 1 then "" else parts.getLastD ""

/-- The basename of a path with its extension removed. -/
def stemOf (path : String) : String :=
  let base := (pathComponents path).getLastD ""
  let ext := splitextExt base
  if ext = "" then base
  else (base.toList.take (base.toList.length - (ext.toList.length + 1))).asString

/-- Modelled from the spec: CaptureFile.get_capture_uuid (files.py, not under
src) recovers the capture id from a filepath laid out as
captureRoot/date/deviceType/captureId.extension (spec section 6): the id is
the filename stem. -/
def CaptureFile.get_capture_uuid (filepath : String) : Option String :=
  let base := (pathComponents filepath).getLastD ""
  if stemOf base = "" then none else some (stemOf base)

/-- Modelled from the spec: CaptureFile.from_filepath (files.py, not under
src) reconstructs a Capture record purely from a path shaped
captureRoot/date/deviceType/captureId.extension (spec sections 3 and 6),
returning none when the path does not conform. -/
def CaptureFile.from_filepath (filepath : String) : Option CaptureFile :=
  match (pathComponents filepath).reverse with
  | base :: device :: date :: _ =>
    if stemOf base = "" then none
    else some { capture_uuid := stemOf base, device_type := device, timestamp := date,
                file_extension := splitextExt base, filepath := filepath }
  | _ => none

/-- Modelled from the spec: the CaptureFile constructor (files.py, not under
src) derives the backing filepath from the capture directory, the date, the
device type, the capture id and the extension, in the layout
captureRoot/date/deviceType/captureId.extension (spec section 6). The date
component is modelled as the capture timestamp string. -/
def CaptureFile.make (capture_directory capture_uuid device_type timestamp file_extension : String) : CaptureFile :=
  { capture_uuid := capture_uuid
    device_type := device_type
    timestamp := timestamp
    file_extension := file_extension
    filepath := capture_directory ++ "/" ++ timestamp ++ "/" ++ device_type ++ "/" ++ capture_uuid ++ "." ++ file_extension }

/-- The result of glob over audio_directory with the three-level pattern
star/star/star: the paths of the filesystem lying exactly three levels below
the directory. -/
def globThreeLevels (audio_directory : String) (fs : List String) : List String :=
  fs.filter (fun p =>
    ((pathComponents p).length == (pathComponents audio_directory).length + 3)
      && (audio_directory ++ "/").toList.isPrefixOf p.toList)

/-- Python list.index: the index of the first occurrence, a ValueError when
the element does not occur. -/
def pyIndexAux {α : Type} [DecidableEq α] (x : α) : List α → Option Nat
  | [] => none
  | y :: ys => if y = x then some 0 else (pyIndexAux x ys).map (fun n => n + 1)

/-- Python list.index as an Except: error models the raised ValueError. -/
def pyIndex {α : Type} [DecidableEq α] (xs : List α) (x : α) : Except String Nat :=
  match pyIndexAux x xs with
  | none => Except.error "ValueError: not in list"
  | some i => Except.ok i

/-- find_audio_filepath from the source, with the filesystem listing fs made
explicit (fs stands for the files the glob call can see). The source computes
capture_uuids for every globbed file and calls list.index, then tests
file_idx below zero; error carries the ValueError that list.index raises. -/
def find_audio_filepath (fs : List String) (audio_directory : String)
    (capture_uuid : String) : Except String (Option String) :=
  let filepaths := globThreeLevels audio_directory fs
  let capture_uuids := filepaths.map CaptureFile.get_capture_uuid
  match pyIndex capture_uuids (some capture_uuid) with
  | Except.error e => Except.error e
  | Except.ok file_idx =>
    -- the source tests file_idx < 0 and returns None; with list.index this
    -- branch is unreachable, in the source as here, since list.index raises
    -- rather than returning a negative sentinel
    if file_idx < 0 then Except.ok none
    else Except.ok (some (filepaths.getD file_idx ""))

/-- The per-conversation processing loop of ProcessAudioChunkTask.run with its
surrounding try/except translated faithfully: the external processor is
invoked segment by segment; when an invocation fails (fails s is true) the
exception leaves the loop and is caught once, outside the loop, where it is
logged. The result is the list of segments on which the processor was actually
invoked, paired with whether an exception was caught. -/
def processSegmentsLoop (fails : SegmentFile → Bool) : List SegmentFile → List SegmentFile × Bool
  | [] => ([], false)
  | s :: rest =>
    if fails s then ([s], true)
    else
      let r := processSegmentsLoop fails rest
      (s :: r.1, r.2)

/-- The observable effects of one run of ProcessAudioChunkTask: the arguments
the detector was invoked with, the segment files created, the segments the
external conversation processor was invoked on, whether a processing failure
was caught and logged, and the progress updates sent to the notifier. -/
structure RunEffects where
  detect_call : Option (List Nat) × String × Bool
  segment_files : List SegmentFile
  processed_segments : List SegmentFile
  processing_error_logged : Bool
  progress_updates : List ConversationProgress
deriving DecidableEq

/-- ProcessAudioChunkTask.run. The detector and the external conversation
processor are collaborators outside this module, so they enter as parameters:
detect is detection_service.detect_conversations, and fails says on which
segment files process_conversation_from_audio raises. The body follows the
source line by line: capture_finished is audio_data being absent; one segment
file is created per completed conversation; the processor runs inside one
try/except around the whole loop; the progress-update list is accumulated by
appending, completed conversations first and then the in-progress one. -/
def ProcessAudioChunkTask.runModel (task : ProcessAudioChunkTask)
    (detect : Option (List Nat) → String → Bool → DetectionResult)
    (fails : SegmentFile → Bool) : RunEffects :=
  let capture_finished := task.audio_data.isNone
  let detection_results := detect task.audio_data task.format capture_finished
  let segment_files := detection_results.completed.map (fun convo =>
    task.capture_file.create_conversation_segment convo.uuid convo.endpoints.start task.format)
  let proc := processSegmentsLoop fails segment_files
  let progress_updates := detection_results.completed.foldl
    (fun acc convo => acc ++
      [{ conversation_uuid := convo.uuid, in_conversation := false,
         start_time := convo.endpoints.start, end_time := convo.endpoints.stop,
         device_type := task.capture_file.device_type }]) []
  let progress_updates :=
    match detection_results.in_progress with
    | none => progress_updates
    | some convo => progress_updates ++
      [{ conversation_uuid := convo.uuid, in_conversation := true,
         start_time := convo.endpoints.start, end_time := convo.endpoints.stop,
         device_type := task.capture_file.device_type }]
  { detect_call := (task.audio_data, task.format, capture_finished)
    segment_files := segment_files
    processed_segments := proc.1
    processing_error_logged := proc.2
    progress_updates := progress_updates }

/-- Modelled from the spec: StreamingCaptureHandler.handle_audio_data
(streaming_capture_handler.py, not under src) appends the received bytes to
the capture's frame store and submits a processing task carrying the new
bytes (spec section 4.5). The registry of capture handlers is not touched. -/
def handle_audio_data (h : StreamingCaptureHandler) (st : AppState) (chunk : List Nat) : AppState :=
  let path := st.capture_dir ++ "/" ++ st.current_date ++ "/" ++ h.device_type ++ "/" ++ h.capture_uuid ++ "." ++ h.file_extension
  let newFiles := appendToFile st.files path ({ data := chunk, write_wav_header := false })
  { st with files := newFiles
            task_queue := st.task_queue ++ [QueuedTask.streamAppend h.capture_uuid chunk] }

/-- Modelled from the spec: StreamingCaptureHandler.finish_capture_session
(streaming_capture_handler.py, not under src) submits one final processing
task with no new bytes and captureFinished true, and does not remove the
session from the registry (spec section 4.5). -/
def finish_capture_session (st : AppState) (capture_uuid : String) : AppState :=
  { st with task_queue := st.task_queue ++ [QueuedTask.streamFinal capture_uuid] }

/-- The streaming_post endpoint. chunks are the byte frames that arrived
before the stream ended; disconnected records whether the stream ended with a
ClientDisconnect instead of a normal end. The source creates the handler on
first contact, feeds every arrived frame to it and catches ClientDisconnect,
only logging it, so the response is the same success body in both cases and
the handler registry keeps its entry. -/
def streaming_post (st : AppState) (capture_uuid : String) (device_type : String)
    (chunks : List (List Nat)) (disconnected : Bool) : CaptureResponse × AppState :=
  let freshHandler : StreamingCaptureHandler :=
    { capture_uuid := capture_uuid, device_type := device_type, file_extension := "wav" }
  let st1 :=
    if (getKey st.capture_handlers capture_uuid).isSome then st
    else { st with capture_handlers := setKey st.capture_handlers capture_uuid freshHandler }
  let handler := (getKey st1.capture_handlers capture_uuid).getD freshHandler
  let st2 := chunks.foldl (handle_audio_data handler) st1
  -- except ClientDisconnect: logger.info(...) — the disconnect is swallowed,
  -- so the same return statement is reached whether disconnected or not
  (CaptureResponse.ok "Audio received", st2)

/-- The complete_audio endpoint: a 500 when the capture id is unknown,
otherwise finish_capture_session on the handler and a success body. Nothing
is removed from the capture handler registry. -/
def complete_audio (st : AppState) (capture_uuid : String) : CaptureResponse × AppState :=
  match getKey st.capture_handlers capture_uuid with
  | none => (CaptureResponse.httpError 500 "Capture session not found", st)
  | some _ => (CaptureResponse.ok "Audio processed", finish_capture_session st capture_uuid)

/-- The set of supported chunk upload extensions from the source. -/
def supported_upload_file_extensions : List String := [ "pcm", "wav", "aac" ]

/-- The observable outcome of one upload_chunk request: the response, the
state after the request, the append performed on the backing file if any
(filepath, bytes, write_wav_header flag), the task queued if any, and whether
the ProcessAudioChunkTask constructor assert failed. -/
structure UploadOutcome where
  response : CaptureResponse
  state : AppState
  append_call : Option (String × List Nat × Bool)
  queued_task : Option ProcessAudioChunkTask
  assertion_failed : Bool
deriving DecidableEq

/-- The append-and-enqueue tail of upload_chunk: records the append with the
write_wav_header flag, then constructs the task (whose assert can fail, in
which case the exception reaches the outer handler as a 500 after the state
changes so far persist) and puts it on the task queue. -/
def upload_append_and_queue (st : AppState) (capture_file : CaptureFile)
    (detection_service : ConversationDetectionService) (content : List Nat)
    (write_wav_header : Bool) (file_extension : String) : UploadOutcome :=
  let newFiles := appendToFile st.files capture_file.filepath
    ({ data := content, write_wav_header := write_wav_header })
  let st2 := { st with files := newFiles }
  match ProcessAudioChunkTask.mkChecked capture_file detection_service file_extension (some content) with
  | Except.error e =>
    { response := CaptureResponse.httpError 500 e, state := st2,
      append_call := some (capture_file.filepath, content, write_wav_header),
      queued_task := none, assertion_failed := true }
  | Except.ok task =>
    { response := CaptureResponse.ok "Audio processed",
      state := { st2 with task_queue := st2.task_queue ++ [QueuedTask.chunk task] },
      append_call := some (capture_file.filepath, content, write_wav_header),
      queued_task := some task, assertion_failed := false }

/-- upload_chunk after the extension validation: pcm is rewritten to wav with
the write_wav_header flag set for this chunk; the session is looked up or
created together with its detection service; then the append and the task
submission happen. A session found without its detection service is the
internal 500 of the source. -/
def upload_chunk_validated (st : AppState) (ext0 : String) (content : List Nat)
    (capture_uuid timestamp device_type : String) : UploadOutcome :=
  let write_wav_header := ext0 == "pcm"
  let file_extension := if ext0 == "pcm" then "wav" else ext0
  match getKey st.capture_files_by_id capture_uuid with
  | some capture_file =>
    match getKey st.conversation_detection_service_by_id capture_uuid with
    | none =>
      { response := CaptureResponse.httpError 500 "Internal error: Lost conversation service",
        state := st, append_call := none, queued_task := none, assertion_failed := false }
    | some detection_service =>
      upload_append_and_queue st capture_file detection_service content write_wav_header file_extension
  | none =>
    let capture_file := CaptureFile.make st.capture_dir capture_uuid device_type timestamp file_extension
    let detection_service : ConversationDetectionService :=
      { capture_filepath := capture_file.filepath, capture_timestamp := capture_file.timestamp }
    let st2 := { st with
      capture_files_by_id := setKey st.capture_files_by_id capture_uuid capture_file
      conversation_detection_service_by_id :=
        setKey st.conversation_detection_service_by_id capture_uuid detection_service }
    upload_append_and_queue st2 capture_file detection_service content write_wav_header file_extension

/-- The upload_chunk endpoint: computes the extension of the uploaded file,
answers with a success-shaped body carrying a failure message when the
extension is unsupported (touching nothing), and otherwise continues with the
validated path. -/
def upload_chunk (st : AppState) (filename : String) (content : List Nat)
    (capture_uuid timestamp device_type : String) : UploadOutcome :=
  let file_extension := splitextExt filename
  if file_extension ∉ supported_upload_file_extensions then
    { response := CaptureResponse.ok
        ("Failed to process because file extension is unsupported: " ++ file_extension),
      state := st, append_call := none, queued_task := none, assertion_failed := false }
  else
    upload_chunk_validated st file_extension content capture_uuid timestamp device_type

/-- The process_capture endpoint. Every exception inside the body (the
ValueError that find_audio_filepath lets escape, the missing-service
HTTPException, the constructor assert) is caught by the surrounding handler
and surfaces as a 500, leaving the state as it was. On the success path the
final task is queued with audio_data absent and both registry entries for the
capture id are removed. -/
def process_capture (st : AppState) (capture_uuid : String) : CaptureResponse × AppState :=
  match find_audio_filepath (st.files.map Prod.fst) st.capture_dir capture_uuid with
  | Except.error e => (CaptureResponse.httpError 500 e, st)
  | Except.ok none =>
    -- unreachable together with the dead file_idx < 0 branch: kept for
    -- fidelity; CaptureFile.from_filepath(None) would raise in the source
    (CaptureResponse.httpError 500 "TypeError: filepath is None", st)
  | Except.ok (some filepath) =>
    match CaptureFile.from_filepath filepath with
    | none => (CaptureResponse.httpError 500 "Internal error: File is incorrectly named on server", st)
    | some capture_file =>
      match getKey st.conversation_detection_service_by_id capture_uuid with
      | none =>
        -- the source raises here with a mistyped keyword status_Code, so at
        -- runtime a TypeError is raised instead and the outer handler turns
        -- it into the same observable 500
        (CaptureResponse.httpError 500 "Internal error: Lost conversation service", st)
      | some detection_service =>
        match ProcessAudioChunkTask.mkChecked capture_file detection_service
            (splitextExt capture_file.filepath) none with
        | Except.error e => (CaptureResponse.httpError 500 e, st)
        | Except.ok task =>
          let st2 := { st with task_queue := st.task_queue ++ [QueuedTask.chunk task] }
          let st3 := { st2 with
            capture_files_by_id := delKey st2.capture_files_by_id capture_uuid
            conversation_detection_service_by_id :=
              delKey st2.conversation_detection_service_by_id capture_uuid }
          (CaptureResponse.ok "Conversation processed", st3)

/-- An initial application state with empty registries and an empty capture
directory named root. -/
def st_empty : AppState :=
  { capture_files_by_id := [], conversation_detection_service_by_id := [], capture_handlers := [],
    files := [], task_queue := [], capture_dir := "root", current_date := "2024-01-01" }

/-- First chunk upload of a session: a pcm chunk for capture cap1. -/
def up1 : UploadOutcome := upload_chunk st_empty "a.pcm" [1, 2] "cap1" "2024-01-01" "watch"

/-- Second chunk upload of the same session: another pcm chunk for cap1,
arriving when the session already exists and its backing file already holds
container-format data. -/
def up2 : UploadOutcome := upload_chunk up1.state "b.pcm" [3, 4] "cap1" "2024-01-01" "watch"

/-- A capture file fixture for exercising the processing task. -/
def cf0 : CaptureFile :=
  { capture_uuid := "cap1", device_type := "watch", timestamp := "2024-01-01",
    file_extension := "wav", filepath := "root/2024-01-01/watch/cap1.wav" }

/-- A detection service fixture bound to cf0. -/
def ds0 : ConversationDetectionService :=
  { capture_filepath := "root/2024-01-01/watch/cap1.wav", capture_timestamp := "2024-01-01" }

/-- A first completed conversation fixture. -/
def convoA : Conversation := { uuid := "a", endpoints := { start := 0, stop := 5 } }

/-- A second completed conversation fixture. -/
def convoB : Conversation := { uuid := "b", endpoints := { start := 6, stop := 9 } }

/-- A chunk-processing task fixture carrying new audio bytes. -/
def task0 : ProcessAudioChunkTask :=
  { capture_file := cf0, detection_service := ds0, format := "wav", audio_data := some [1] }

/-- A detector fixture returning two completed conversations and no
in-progress one. -/
def detect0 : Option (List Nat) → String → Bool → DetectionResult :=
  fun _ _ _ => { completed := [convoA, convoB], in_progress := none }

/-- The segment file task0 creates for convoA. -/
def segA : SegmentFile := cf0.create_conversation_segment "a" 0 "wav"

/-- The segment file task0 creates for convoB. -/
def segB : SegmentFile := cf0.create_conversation_segment "b" 6 "wav"

/-- An external processor that fails exactly on the first segment artifact. -/
def fails0 : SegmentFile → Bool := fun s => decide (s = segA)

/-- An external processor that fails exactly on the second segment artifact. -/
def fails1 : SegmentFile → Bool := fun s => decide (s = segB)

/-- A state with no in-memory session entries but one matching on-disk file
under the two-level date/device layout, as after a process restart. -/
def st_c3 : AppState :=
  { capture_files_by_id := [], conversation_detection_service_by_id := [], capture_handlers := [],
    files := [("root/2024-01-01/watch/abc.wav", [ { data := [1], write_wav_header := true } ])],
    task_queue := [], capture_dir := "root", current_date := "2024-01-01" }

/-- A detection service fixture for capture abc. -/
def dsAbc : ConversationDetectionService :=
  { capture_filepath := "root/2024-01-01/watch/abc.wav", capture_timestamp := "2024-01-01" }

/-- The capture file that from_filepath reconstructs for the abc fixture. -/
def cfAbc : CaptureFile :=
  { capture_uuid := "abc", device_type := "watch", timestamp := "2024-01-01",
    file_extension := "wav", filepath := "root/2024-01-01/watch/abc.wav" }

/-- The st_c3 state with the in-memory detection service still registered. -/
def st_c3w : AppState :=
  { st_c3 with capture_files_by_id := [("abc", cfAbc)]
               conversation_detection_service_by_id := [("abc", dsAbc)] }

/-- A streaming handler fixture for capture abc. -/
def hdl0 : StreamingCaptureHandler :=
  { capture_uuid := "abc", device_type := "watch", file_extension := "wav" }

/-- A state with one active streaming capture session for abc. -/
def st_c8 : AppState := { st_empty with capture_handlers := [("abc", hdl0)] }

theorem getKey_setKey_self {α : Type} (m : List (String × α)) (k : String) (v : α) :
    getKey (setKey m k v) k = some v := by
  induction m with
  | nil => simp [setKey, getKey]
  | cons p t ih =>
    obtain ⟨k2, v2⟩ := p
    by_cases h : k2 = k
    · simp [setKey, getKey, h]
    · simp [setKey, getKey, h, ih]

theorem getKey_delKey_self {α : Type} (m : List (String × α)) (k : String) :
    getKey (delKey m k) k = none := by
  induction m with
  | nil => rfl
  | cons p t ih =>
    obtain ⟨k2, v2⟩ := p
    by_cases h : k2 = k
    · simp [delKey, h, ih]
    · simp [delKey, getKey, h, ih]

theorem option_all_mono {α : Type} (p q : α → Bool) (h : ∀ a, p a = true → q a = true)
    (o : Option α) (ho : o.all p = true) : o.all q = true := by
  cases o with
  | none => rfl
  | some a => exact h a ho

theorem foldl_append_map {α β : Type} (f : α → β) (l : List α) (acc : List β) :
    l.foldl (fun a x => a ++ [f x]) acc = acc ++ l.map f := by
  induction l generalizing acc with
  | nil => simp
  | cons x t ih => simp [List.foldl, ih]

theorem processSegmentsLoop_first_failure (fails : SegmentFile → Bool)
    (pre : List SegmentFile) (s : SegmentFile) (post : List SegmentFile)
    (hpre : ∀ x ∈ pre, fails x = false) (hs : fails s = true) :
    processSegmentsLoop fails (pre ++ s :: post) = (pre ++ [s], true) := by
  induction pre with
  | nil => simp [processSegmentsLoop, hs]
  | cons a t ih =>
    have ha : fails a = false := hpre a (by simp)
    have ih2 := ih (fun x hx => hpre x (by simp [hx]))
    simp [processSegmentsLoop, ha, ih2]

theorem handle_audio_data_capture_handlers (h : StreamingCaptureHandler)
    (st : AppState) (c : List Nat) :
    (handle_audio_data h st c).capture_handlers = st.capture_handlers := rfl

theorem foldl_handle_audio_data_capture_handlers (h : StreamingCaptureHandler)
    (chunks : List (List Nat)) (st : AppState) :
    (chunks.foldl (handle_audio_data h) st).capture_handlers = st.capture_handlers := by
  induction chunks generalizing st with
  | nil => rfl
  | cons c t ih => rw [List.foldl_cons, ih, handle_audio_data_capture_handlers]

theorem upload_append_and_queue_effects (st : AppState) (cf : CaptureFile)
    (ds : ConversationDetectionService) (content : List Nat) (b : Bool) (fe : String)
    (hfmt : fe = "wav" ∨ fe = "aac") :
    (upload_append_and_queue st cf ds content b fe).append_call = some (cf.filepath, content, b)
    ∧ (upload_append_and_queue st cf ds content b fe).queued_task
        = some { capture_file := cf, detection_service := ds, format := fe, audio_data := some content }
    ∧ (upload_append_and_queue st cf ds content b fe).assertion_failed = false := by
  unfold upload_append_and_queue ProcessAudioChunkTask.mkChecked
  rw [if_pos hfmt]
  exact ⟨rfl, rfl, rfl⟩

theorem upload_chunk_validated_effects (st : AppState) (ext0 : String) (content : List Nat)
    (cid ts dt : String) (fe : String)
    (hfe : (if ext0 == "pcm" then "wav" else ext0) = fe)
    (hfmt : fe = "wav" ∨ fe = "aac") :
    (upload_chunk_validated st ext0 content cid ts dt).append_call.all
        (fun c => c.2.2 == (ext0 == "pcm")) = true
    ∧ (upload_chunk_validated st ext0 content cid ts dt).queued_task.all
        (fun t => t.format == fe) = true
    ∧ (upload_chunk_validated st ext0 content cid ts dt).assertion_failed = false := by
  unfold upload_chunk_validated
  rw [hfe]
  cases hcf : getKey st.capture_files_by_id cid with
  | some cf =>
    cases hds : getKey st.conversation_detection_service_by_id cid with
    | none => exact ⟨rfl, rfl, rfl⟩
    | some ds =>
      obtain ⟨h1, h2, h3⟩ := upload_append_and_queue_effects st cf ds content
        (ext0 == "pcm") fe hfmt
      rw [h1, h2, h3]
      simp [Option.all]
  | none =>
    obtain ⟨h1, h2, h3⟩ := upload_append_and_queue_effects
      ({ st with
          capture_files_by_id := setKey st.capture_files_by_id cid
            (CaptureFile.make st.capture_dir cid dt ts fe)
          conversation_detection_service_by_id :=
            setKey st.conversation_detection_service_by_id cid
              ({ capture_filepath := (CaptureFile.make st.capture_dir cid dt ts fe).filepath
                 capture_timestamp := (CaptureFile.make st.capture_dir cid dt ts fe).timestamp }) })
      (CaptureFile.make st.capture_dir cid dt ts fe)
      ({ capture_filepath := (CaptureFile.make st.capture_dir cid dt ts fe).filepath
         capture_timestamp := (CaptureFile.make st.capture_dir cid dt ts fe).timestamp })
      content (ext0 == "pcm") fe hfmt
    rw [h1, h2, h3]
    simp [Option.all]

/-- Claim C1 as stated is false on the code: the try/except in
ProcessAudioChunkTask.run wraps the whole per-artifact loop, not each
iteration, so when the external conversation processor fails on the first of
two segment artifacts, the second artifact is never processed. Concretely,
with a detector returning two completed conversations and a processor failing
on the first artifact, the processor is invoked on the first artifact only. -/
theorem C1_per_artifact_counterexample :
    (ProcessAudioChunkTask.runModel task0 detect0 fails0).segment_files = [segA, segB]
    ∧ fails0 segA = true
    ∧ (ProcessAudioChunkTask.runModel task0 detect0 fails0).processed_segments = [segA]
    ∧ segB ∉ (ProcessAudioChunkTask.runModel task0 detect0 fails0).processed_segments := by
  decide

/-- Claim C1, amended: when the external conversation processor fails for one
segment artifact, the failure is caught and logged once at the task level (the
task still completes and sends the same progress updates, so the task queue is
not aborted); the artifacts before the failing one are all processed, but the
artifacts after the failing one are not invoked, because the single try/except
wraps the whole loop. -/
theorem C1_partial_processing_amended (task : ProcessAudioChunkTask)
    (detect : Option (List Nat) → String → Bool → DetectionResult)
    (fails : SegmentFile → Bool) (pre : List SegmentFile) (s : SegmentFile)
    (post : List SegmentFile)
    (hseg : (ProcessAudioChunkTask.runModel task detect fails).segment_files = pre ++ s :: post)
    (hpre : ∀ x ∈ pre, fails x = false) (hs : fails s = true) :
    (ProcessAudioChunkTask.runModel task detect fails).processed_segments = pre ++ [s]
    ∧ (ProcessAudioChunkTask.runModel task detect fails).processing_error_logged = true
    ∧ (ProcessAudioChunkTask.runModel task detect fails).progress_updates
        = (ProcessAudioChunkTask.runModel task detect (fun _ => false)).progress_updates := by
  have h1 : (ProcessAudioChunkTask.runModel task detect fails).processed_segments
      = (processSegmentsLoop fails ((ProcessAudioChunkTask.runModel task detect fails).segment_files)).1 := rfl
  have h2 : (ProcessAudioChunkTask.runModel task detect fails).processing_error_logged
      = (processSegmentsLoop fails ((ProcessAudioChunkTask.runModel task detect fails).segment_files)).2 := rfl
  rw [hseg, processSegmentsLoop_first_failure fails pre s post hpre hs] at h1 h2
  exact ⟨h1, h2, rfl⟩

/-- Witness for the amended claim C1, at a concrete task whose detector finds
two completed conversations and whose processor fails on the second artifact:
the hypotheses hold there, the first artifact is processed, the failing one is
the last invoked, and the progress updates are unaffected. -/
theorem C1_partial_processing_witness :
    ((ProcessAudioChunkTask.runModel task0 detect0 fails1).segment_files = [segA] ++ segB :: []
      ∧ fails1 segB = true)
    ∧ ((ProcessAudioChunkTask.runModel task0 detect0 fails1).processed_segments = [segA] ++ [segB]
      ∧ (ProcessAudioChunkTask.runModel task0 detect0 fails1).processing_error_logged = true
      ∧ (ProcessAudioChunkTask.runModel task0 detect0 fails1).progress_updates
          = (ProcessAudioChunkTask.runModel task0 detect0 (fun _ => false)).progress_updates) := by
  refine ⟨⟨by decide, by decide⟩, ?_⟩
  exact C1_partial_processing_amended task0 detect0 fails1 [segA] segB []
    (by decide) (by intro x hx; rw [List.mem_singleton] at hx; subst hx; decide) (by decide)

/-- Claim C2: find_audio_filepath is claimed to return absent on zero matches
and on multiple matches, never raising and never picking. The code instead
calls list.index, which raises ValueError when no capture id matches (the
file_idx below zero guard is dead code), and when several files match it
silently returns the first one. Both behaviors are evaluated here at concrete
inputs: an empty directory, and a directory holding two files for the same
capture id on different dates. -/
theorem C2_find_audio_filepath_behavior :
    find_audio_filepath [] "root" "abc" = Except.error "ValueError: not in list"
    ∧ find_audio_filepath [ "root/d1/dev/abc.wav", "root/d2/dev/abc.wav" ] "root" "abc"
        = Except.ok (some "root/d1/dev/abc.wav") := by
  exact ⟨by decide, by decide⟩

/-- Claim C3 as stated is false on the code: for a capture id with no
in-memory session entries but a matching on-disk file under the two-level
layout, process_capture does locate the file, but then fails to find a
conversation detection service in memory and returns a 500 error rather than
the success response; no task is submitted and nothing is removed. -/
theorem C3_recovery_counterexample :
    st_c3.capture_files_by_id = []
    ∧ st_c3.conversation_detection_service_by_id = []
    ∧ find_audio_filepath (st_c3.files.map Prod.fst) st_c3.capture_dir "abc"
        = Except.ok (some "root/2024-01-01/watch/abc.wav")
    ∧ process_capture st_c3 "abc"
        = (CaptureResponse.httpError 500 "Internal error: Lost conversation service", st_c3) := by
  refine ⟨rfl, rfl, by decide, by decide⟩

/-- Claim C3, amended: process_capture succeeds only while the capture's
detection service is still registered in memory; recovery locates the on-disk
file (and reconstructs the capture record from its path) but does not
reconstruct the detection service, so with no in-memory session the call is a
500. When the service is present and the located file parses to a capture
record with a supported container extension, the endpoint returns the success
response, submits one final task with the audio bytes absent, and removes both
in-memory entries for the capture id. -/
theorem C3_process_capture_amended (st : AppState) (capture_uuid fp : String)
    (cf : CaptureFile) (ds : ConversationDetectionService)
    (hfind : find_audio_filepath (st.files.map Prod.fst) st.capture_dir capture_uuid
        = Except.ok (some fp))
    (hfrom : CaptureFile.from_filepath fp = some cf)
    (hds : getKey st.conversation_detection_service_by_id capture_uuid = some ds)
    (hfmt : splitextExt cf.filepath = "wav" ∨ splitextExt cf.filepath = "aac") :
    (process_capture st capture_uuid).1 = CaptureResponse.ok "Conversation processed"
    ∧ (process_capture st capture_uuid).2.task_queue = st.task_queue ++
        [QueuedTask.chunk { capture_file := cf, detection_service := ds,
                            format := splitextExt cf.filepath, audio_data := none }]
    ∧ getKey (process_capture st capture_uuid).2.capture_files_by_id capture_uuid = none
    ∧ getKey (process_capture st capture_uuid).2.conversation_detection_service_by_id capture_uuid = none := by
  unfold process_capture
  rw [hfind]
  simp only [hfrom, hds]
  unfold ProcessAudioChunkTask.mkChecked
  rw [if_pos hfmt]
  exact ⟨rfl, rfl, getKey_delKey_self st.capture_files_by_id capture_uuid,
    getKey_delKey_self st.conversation_detection_service_by_id capture_uuid⟩

/-- Witness for the amended claim C3, at a concrete state whose registry still
holds the detection service for capture abc and whose capture directory holds
the matching file: the hypotheses hold there and the endpoint succeeds,
queues the finalize task with absent bytes, and evicts both entries. -/
theorem C3_process_capture_witness :
    (find_audio_filepath (st_c3w.files.map Prod.fst) st_c3w.capture_dir "abc"
        = Except.ok (some "root/2024-01-01/watch/abc.wav")
      ∧ CaptureFile.from_filepath "root/2024-01-01/watch/abc.wav" = some cfAbc
      ∧ getKey st_c3w.conversation_detection_service_by_id "abc" = some dsAbc)
    ∧ ((process_capture st_c3w "abc").1 = CaptureResponse.ok "Conversation processed"
      ∧ (process_capture st_c3w "abc").2.task_queue = st_c3w.task_queue ++
          [QueuedTask.chunk { capture_file := cfAbc, detection_service := dsAbc,
                              format := splitextExt cfAbc.filepath, audio_data := none }]
      ∧ getKey (process_capture st_c3w "abc").2.capture_files_by_id "abc" = none
      ∧ getKey (process_capture st_c3w "abc").2.conversation_detection_service_by_id "abc" = none) := by
  refine ⟨⟨by decide, by decide, by decide⟩, ?_⟩
  exact C3_process_capture_amended st_c3w "abc" "root/2024-01-01/watch/abc.wav" cfAbc dsAbc
    (by decide) (by decide) (by decide) (Or.inl (by decide))

/-- Claim C4 as stated is false on the code: upload_chunk sets the
write_wav_header flag from the extension of the chunk at hand, so the flag is
passed as true for every pcm chunk, not only while the session has no prior
container-format data. Concretely: after a first pcm upload for cap1 the
session exists and its backing wav file holds data, yet a second pcm upload
for the same session is appended with the flag still true. -/
theorem C4_header_flag_counterexample :
    (getKey up1.state.capture_files_by_id "cap1").isSome = true
    ∧ (getKey up1.state.files "root/2024-01-01/watch/cap1.wav").isSome = true
    ∧ up1.append_call = some ("root/2024-01-01/watch/cap1.wav", [1, 2], true)
    ∧ up2.append_call = some ("root/2024-01-01/watch/cap1.wav", [3, 4], true) := by
  refine ⟨by decide, by decide, by decide, by decide⟩

/-- Claim C4, amended: for every accepted chunk upload, raw-sample (pcm)
chunks are normalized to the wav container format (the queued task's format is
wav; wav and aac chunks keep their extension), and the synthesize-header flag
passed to the append equals whether the chunk at hand is pcm — it is passed as
true for every pcm chunk, not only for the session's first append; guarding
header synthesis against existing data is left to the frame store. -/
theorem C4_pcm_normalization_amended (st : AppState) (filename : String)
    (content : List Nat) (capture_uuid timestamp device_type : String)
    (hsupp : splitextExt filename ∈ supported_upload_file_extensions) :
    (upload_chunk st filename content capture_uuid timestamp device_type).append_call.all
        (fun c => c.2.2 == (splitextExt filename == "pcm")) = true
    ∧ (upload_chunk st filename content capture_uuid timestamp device_type).queued_task.all
        (fun t => t.format == (if splitextExt filename == "pcm" then "wav" else splitextExt filename)) = true := by
  have hne : ¬ (splitextExt filename ∉ supported_upload_file_extensions) := not_not_intro hsupp
  unfold upload_chunk
  rw [if_neg hne]
  have hcases : splitextExt filename = "pcm" ∨ splitextExt filename = "wav"
      ∨ splitextExt filename = "aac" := by
    simpa [supported_upload_file_extensions] using hsupp
  rcases hcases with h | h | h
  all_goals rw [h]
  · obtain ⟨h1, h2, h3⟩ := upload_chunk_validated_effects st "pcm" content
      capture_uuid timestamp device_type "wav" (by decide) (Or.inl rfl)
    exact ⟨h1, h2⟩
  · obtain ⟨h1, h2, h3⟩ := upload_chunk_validated_effects st "wav" content
      capture_uuid timestamp device_type "wav" (by decide) (Or.inl rfl)
    exact ⟨h1, h2⟩
  · obtain ⟨h1, h2, h3⟩ := upload_chunk_validated_effects st "aac" content
      capture_uuid timestamp device_type "aac" (by decide) (Or.inr rfl)
    exact ⟨h1, h2⟩

/-- Witness for the amended claim C4, at a pcm upload into an empty state:
the extension is supported, the append is performed with the flag true, and
the queued task's format is the normalized wav. -/
theorem C4_pcm_normalization_witness :
    splitextExt "a.pcm" ∈ supported_upload_file_extensions
    ∧ ((upload_chunk st_empty "a.pcm" [1, 2] "cap1" "2024-01-01" "watch").append_call.all
        (fun c => c.2.2 == (splitextExt "a.pcm" == "pcm")) = true
      ∧ (upload_chunk st_empty "a.pcm" [1, 2] "cap1" "2024-01-01" "watch").queued_task.all
        (fun t => t.format == (if splitextExt "a.pcm" == "pcm" then "wav" else splitextExt "a.pcm")) = true) := by
  refine ⟨by decide, ?_⟩
  exact C4_pcm_normalization_amended st_empty "a.pcm" [1, 2] "cap1" "2024-01-01" "watch" (by decide)

/-- Claim C5: a chunk upload whose extension is outside the supported set
pcm/wav/aac receives a success-shaped response carrying a failure message
(never an error status), and the request changes nothing: no session registry
entry, no detection service, no backing file, no append, no queued task. -/
theorem C5_unsupported_extension_soft_fail (st : AppState) (filename : String)
    (content : List Nat) (capture_uuid timestamp device_type : String)
    (h : splitextExt filename ∉ supported_upload_file_extensions) :
    (upload_chunk st filename content capture_uuid timestamp device_type).response
      = CaptureResponse.ok ("Failed to process because file extension is unsupported: "
          ++ splitextExt filename)
    ∧ (upload_chunk st filename content capture_uuid timestamp device_type).state = st
    ∧ (upload_chunk st filename content capture_uuid timestamp device_type).append_call = none
    ∧ (upload_chunk st filename content capture_uuid timestamp device_type).queued_task = none := by
  unfold upload_chunk
  rw [if_pos h]
  exact ⟨rfl, rfl, rfl, rfl⟩

/-- Witness for claim C5: an mp3 upload into an empty state takes the
soft-failure branch and leaves the state untouched. -/
theorem C5_unsupported_extension_witness :
    splitextExt "a.mp3" ∉ supported_upload_file_extensions
    ∧ ((upload_chunk st_empty "a.mp3" [9] "c" "t" "d").response
        = CaptureResponse.ok ("Failed to process because file extension is unsupported: "
            ++ splitextExt "a.mp3")
      ∧ (upload_chunk st_empty "a.mp3" [9] "c" "t" "d").state = st_empty
      ∧ (upload_chunk st_empty "a.mp3" [9] "c" "t" "d").append_call = none
      ∧ (upload_chunk st_empty "a.mp3" [9] "c" "t" "d").queued_task = none) := by
  refine ⟨by decide, ?_⟩
  exact C5_unsupported_extension_soft_fail st_empty "a.mp3" [9] "c" "t" "d" (by decide)

/-- Claim C6: in every run of the processing task, the detector is invoked
with the task's audio bytes and the capture-finished argument, and
capture-finished is true exactly when the audio-bytes field of the task is
absent; finalize is the absent bytes field of the one task type, not a
separate task kind. -/
theorem C6_capture_finished_iff_no_bytes (task : ProcessAudioChunkTask)
    (detect : Option (List Nat) → String → Bool → DetectionResult)
    (fails : SegmentFile → Bool) :
    (ProcessAudioChunkTask.runModel task detect fails).detect_call
      = (task.audio_data, task.format, task.audio_data.isNone)
    ∧ ((ProcessAudioChunkTask.runModel task detect fails).detect_call.2.2 = true
        ↔ task.audio_data = none) := by
  refine ⟨rfl, ?_⟩
  show task.audio_data.isNone = true ↔ task.audio_data = none
  exact Option.isNone_iff_eq_none

/-- Claim C7: the progress updates a task run sends are exactly one update per
completed span — with the in-conversation flag false, that span's start and
end endpoints and the capture's device tag — followed by exactly one update
for the in-progress span when one is present, with the flag true, and nothing
else. -/
theorem C7_progress_updates_shape (task : ProcessAudioChunkTask)
    (detect : Option (List Nat) → String → Bool → DetectionResult)
    (fails : SegmentFile → Bool) :
    (ProcessAudioChunkTask.runModel task detect fails).progress_updates
      = (detect task.audio_data task.format task.audio_data.isNone).completed.map (fun convo =>
          { conversation_uuid := convo.uuid, in_conversation := false,
            start_time := convo.endpoints.start, end_time := convo.endpoints.stop,
            device_type := task.capture_file.device_type })
        ++ (match (detect task.audio_data task.format task.audio_data.isNone).in_progress with
            | none => []
            | some convo =>
              [{ conversation_uuid := convo.uuid, in_conversation := true,
                 start_time := convo.endpoints.start, end_time := convo.endpoints.stop,
                 device_type := task.capture_file.device_type }]) := by
  unfold ProcessAudioChunkTask.runModel
  cases hip : (detect task.audio_data task.format task.audio_data.isNone).in_progress with
  | none => simp [hip, foldl_append_map]
  | some c => simp [hip, foldl_append_map]

/-- Claim C8: completing a streaming capture submits the final processing work
(one final task for the capture) but leaves the capture handler registry
unchanged — the map still contains the capture id afterwards; only the chunk
path's finalize evicts a session. -/
theorem C8_complete_audio_keeps_registry (st : AppState) (capture_uuid : String)
    (h0 : StreamingCaptureHandler)
    (h : getKey st.capture_handlers capture_uuid = some h0) :
    (complete_audio st capture_uuid).1 = CaptureResponse.ok "Audio processed"
    ∧ (complete_audio st capture_uuid).2.capture_handlers = st.capture_handlers
    ∧ getKey (complete_audio st capture_uuid).2.capture_handlers capture_uuid = some h0
    ∧ (complete_audio st capture_uuid).2.task_queue
        = st.task_queue ++ [QueuedTask.streamFinal capture_uuid] := by
  unfold complete_audio
  rw [h]
  exact ⟨rfl, rfl, h, rfl⟩

/-- Witness for claim C8, at a state with one active streaming session: the
session is registered, completion answers with the success body, queues the
final work, and the registry still holds the same entry. -/
theorem C8_complete_audio_witness :
    getKey st_c8.capture_handlers "abc" = some hdl0
    ∧ ((complete_audio st_c8 "abc").1 = CaptureResponse.ok "Audio processed"
      ∧ (complete_audio st_c8 "abc").2.capture_handlers = st_c8.capture_handlers
      ∧ getKey (complete_audio st_c8 "abc").2.capture_handlers "abc" = some hdl0
      ∧ (complete_audio st_c8 "abc").2.task_queue
          = st_c8.task_queue ++ [QueuedTask.streamFinal "abc"]) := by
  refine ⟨by decide, ?_⟩
  exact C8_complete_audio_keeps_registry st_c8 "abc" hdl0 (by decide)

/-- Claim C9: when the client connection drops mid-stream without a completion
signal, the streaming handler swallows the ClientDisconnect: the endpoint
still returns the normal success response and the capture handler registry
still holds an entry for the capture id, so a later finalize can recover from
the on-disk file. -/
theorem C9_disconnect_not_error (st : AppState) (capture_uuid device_type : String)
    (chunks : List (List Nat)) :
    (streaming_post st capture_uuid device_type chunks true).1
      = CaptureResponse.ok "Audio received"
    ∧ (getKey (streaming_post st capture_uuid device_type chunks true).2.capture_handlers
        capture_uuid).isSome = true := by
  refine ⟨rfl, ?_⟩
  unfold streaming_post
  simp only [foldl_handle_audio_data_capture_handlers]
  by_cases hmem : (getKey st.capture_handlers capture_uuid).isSome = true
  · rw [if_pos hmem]
    exact hmem
  · rw [if_neg hmem]
    simp [getKey_setKey_self]

/-- Claim C10: for every chunk upload whose extension passes the supported-set
check, the format carried by the constructed processing task is wav or aac
(pcm having been rewritten to wav beforehand), so the constructor assert never
fires on the chunk-upload path. -/
theorem C10_task_format_invariant (st : AppState) (filename : String)
    (content : List Nat) (capture_uuid timestamp device_type : String)
    (hsupp : splitextExt filename ∈ supported_upload_file_extensions) :
    (upload_chunk st filename content capture_uuid timestamp device_type).assertion_failed = false
    ∧ (upload_chunk st filename content capture_uuid timestamp device_type).queued_task.all
        (fun t => t.format == "wav" || t.format == "aac") = true := by
  have hne : ¬ (splitextExt filename ∉ supported_upload_file_extensions) := not_not_intro hsupp
  unfold upload_chunk
  rw [if_neg hne]
  have hcases : splitextExt filename = "pcm" ∨ splitextExt filename = "wav"
      ∨ splitextExt filename = "aac" := by
    simpa [supported_upload_file_extensions] using hsupp
  rcases hcases with h | h | h
  all_goals rw [h]
  · obtain ⟨h1, h2, h3⟩ := upload_chunk_validated_effects st "pcm" content
      capture_uuid timestamp device_type "wav" (by decide) (Or.inl rfl)
    refine ⟨h3, option_all_mono _ _ ?_ _ h2⟩
    intro t ht
    simp only [beq_iff_eq] at ht
    simp [ht]
  · obtain ⟨h1, h2, h3⟩ := upload_chunk_validated_effects st "wav" content
      capture_uuid timestamp device_type "wav" (by decide) (Or.inl rfl)
    refine ⟨h3, option_all_mono _ _ ?_ _ h2⟩
    intro t ht
    simp only [beq_iff_eq] at ht
    simp [ht]
  · obtain ⟨h1, h2, h3⟩ := upload_chunk_validated_effects st "aac" content
      capture_uuid timestamp device_type "aac" (by decide) (Or.inr rfl)
    refine ⟨h3, option_all_mono _ _ ?_ _ h2⟩
    intro t ht
    simp only [beq_iff_eq] at ht
    simp [ht]

/-- Witness for claim C10, at an aac upload into an empty state: the
extension is supported, the assert does not fire, and the queued task's
format lies in the asserted set. -/
theorem C10_task_format_witness :
    splitextExt "b.aac" ∈ supported_upload_file_extensions
    ∧ ((upload_chunk st_empty "b.aac" [7] "cap2" "2024-01-02" "pendant").assertion_failed = false
      ∧ (upload_chunk st_empty "b.aac" [7] "cap2" "2024-01-02" "pendant").queued_task.all
          (fun t => t.format == "wav" || t.format == "aac") = true) := by
  refine ⟨by decide, ?_⟩
  exact C10_task_format_invariant st_empty "b.aac" [7] "cap2" "2024-01-02" "pendant" (by decide)
